import Mathlib

/-!
Verification of the Generation Orchestration Engine of the avneeshBotProject
repository (an Express chat backend with an Ollama/Gemini generation
waterfall, persisted conversation history, and background title
summarization).  The repository contains several near-duplicate revisions of
`server.js`; the definitions below are shallow embeddings of the revisions
the claims point at:

* `src/unnamed/part_004` — the multi-tier waterfall revision (`AI_WATERFALL`
  cloud cascade after a local Ollama tier with an `AbortController` timeout,
  persistence guard, fire-and-forget `summarizeSessionWithOllama`);
* `src/server.js`       — the buffered revision (whose chat route reads the
  undefined binding `PERSONAS`, awaits `generateSessionTitle` on the request
  path, and whose DELETE route clears `chat_records` without an owner
  filter);
* `src/unnamed/part_005` — the streaming revision (Llama-3.1 template
  prompt, Gemini structured contents, and the "[System Message: ...]"
  total-failure path that is persisted);
* `src/unnamed/part_000` — the early in-memory revision (the Ollama
  `"(No response)"` fallback).
-/

namespace AvneeshBot

/-! ## Configuration constants (src/unnamed/part_004, CONFIG) -/

/-- `CONFIG.CONTEXT_WINDOW = 15` — "Remembers the last 15 messages"
(part_004 line 49). -/
def CONTEXT_WINDOW : Nat := 15

/-- `CONFIG.OLLAMA_TIMEOUT = 120000` ms (part_004 line 50). -/
def OLLAMA_TIMEOUT : Nat := 120000

/-- `CONFIG.OLLAMA_MODEL = "llama3.1:latest"` (part_004 line 46). -/
def OLLAMA_MODEL : String := "llama3.1:latest"

/-- One cloud tier descriptor of the `AI_WATERFALL` array (part_004
lines 60-64). -/
structure Tier where
  id : String
  label : String
  priority : Nat
deriving Repr, DecidableEq

/-- The `AI_WATERFALL` constant of part_004 lines 60-64. -/
def AI_WATERFALL : List Tier :=
  [ ⟨"gemini-3-flash-preview", "Gemini 3.0 Flash", 1⟩,
    ⟨"gemini-2.5-flash", "Gemini 2.5 Flash", 2⟩,
    ⟨"gemini-1.5-pro", "Gemini 1.5 Pro", 3⟩ ]

/-! ## Data model of the part_004 CockroachDB schema -/

/-- A `chat_records` row as inserted by the part_004 chat route
(`saveQ`, line 564): session_id, user_id, user_name, role, message_text,
mode, model_used. -/
structure ChatRecord where
  session_id : Nat
  user_id : Nat
  user_name : String
  role : String
  message_text : String
  mode : String
  model_used : String
deriving Repr, DecidableEq

/-- A `chat_sessions` row (part_004 lines 139-147). -/
structure ChatSession where
  session_id : Nat
  user_id : Nat
  session_name : String
  is_summarized : Bool
deriving Repr, DecidableEq

/-- The persisted store: the `chat_sessions` and `chat_records` tables.
Lists are kept in insertion order, which coincides with `timestamp` order
for rows of one session (rows are only ever appended). -/
structure Db where
  sessions : List ChatSession
  records : List ChatRecord
deriving Repr, DecidableEq

/-- History fetch of the part_004 chat route (lines 452-461): the SQL
`ORDER BY timestamp DESC LIMIT 15` applied to the chronological row list is
`reverse` then `take CONTEXT_WINDOW`; the subsequent JS
`history.rows.reverse()` restores chronological order. -/
def fetchContextRows (turns : List ChatRecord) : List ChatRecord :=
  ((turns.reverse).take CONTEXT_WINDOW).reverse

/-! ## The cloud cascade loop (part_004 lines 521-543)

`respond tierId` models one `model.generateContent` call of the tier with
that id: `none` is a thrown error (network failure, rate limit), and
`some txt` is a completed call whose `response.text()` returned `txt`
(possibly the empty string).  The accumulator mirrors the mutable
`fullReplyText`, `modelUsed` and, for the proofs, the list of tier ids that
have been invoked so far. -/

def cascadeLoop (respond : String → Option String) :
    List Tier → String × String × List String → String × String × List String
  | [], acc => acc
  | tier :: rest, (reply, used, invoked) =>
    match respond tier.id with
    | none => cascadeLoop respond rest (reply, used, invoked ++ [tier.id])
    | some txt =>
      if txt = "" then
        cascadeLoop respond rest (txt, used, invoked ++ [tier.id])
      else
        (txt, tier.label, invoked ++ [tier.id])

/-- A tier attempt counts as failed when `generateContent` threw or when it
returned empty text (the loop's `if (fullReplyText) ... break` guard falls
through in both cases). -/
def tierFailed (r : Option String) : Prop :=
  r = none ∨ r = some ""

instance (r : Option String) : Decidable (tierFailed r) := by
  unfold tierFailed; infer_instance

/-! ## The part_004 chat route (lines 444-588)

Inputs that the handler receives from its environment:

* `db` — the persisted store at request time;
* `currentUserId` — `user.id` or the guest id from `getOrCreateGuestUser`;
* `session_id` — the optional session reference from the request body;
* `newSessionId` — the id the `INSERT INTO chat_sessions ... RETURNING
  session_id` would allocate when a session must be created lazily;
* `ollamaConfigured` / `ollamaResult` — whether `CONFIG.OLLAMA_URL` is set,
  and the outcome of the Tier-1 fetch (`some t`: HTTP-ok with
  `data.response = t`; `none`: thrown, aborted, or non-ok response);
* `geminiConfigured` / `geminiRespond` — whether `ai` is initialized, and
  the outcome of each cloud tier's `generateContent` call.

Outputs: the HTTP response, the store after the handler ran, the tier ids
that were invoked, and the fire-and-forget background calls it started. -/

inductive RouteResponse
  | success (content : String) (session_id : Nat) (model_info : String)
  | error (status : Nat) (message : String)
deriving Repr, DecidableEq

structure RouteResult where
  response : RouteResponse
  db : Db
  tiersInvoked : List String
  background : List String
deriving Repr, DecidableEq

def chatRoute (db : Db) (currentUserId : Nat) (session_id : Option Nat)
    (newSessionId : Nat) (prompt mode user_name : String)
    (ollamaConfigured : Bool) (ollamaResult : Option String)
    (geminiConfigured : Bool) (geminiRespond : String → Option String) :
    RouteResult :=
  let (reply1, used1, inv1) :=
    if ollamaConfigured then
      match ollamaResult with
      | some t => (t, "Ollama (" ++ OLLAMA_MODEL ++ ")", ["ollama"])
      | none => ("", "none", ["ollama"])
    else ("", "none", [])
  let (reply, used, invAll) :=
    if reply1 = "" ∧ geminiConfigured then
      cascadeLoop geminiRespond AI_WATERFALL (reply1, used1, inv1)
    else (reply1, used1, inv1)
  if reply = "" then
    { response := .error 500
        "System Exhaustion: All AI engines are currently unavailable.",
      db := db, tiersInvoked := invAll, background := [] }
  else
    let sid := match session_id with
      | some sid => sid
      | none => newSessionId
    let newSessions := match session_id with
      | some _ => db.sessions
      | none => db.sessions ++
          [⟨newSessionId, currentUserId, "New Conversation", false⟩]
    let newRecords := db.records ++
      [⟨sid, currentUserId, user_name, "user", prompt, mode, "user-input"⟩,
       ⟨sid, currentUserId, user_name, "model", reply, mode, used⟩]
    { response := .success reply sid used,
      db := ⟨newSessions, newRecords⟩,
      tiersInvoked := invAll,
      background := match session_id with
        | some _ => []
        | none => ["summarizeSessionWithOllama"] }

/-! ## Helper lemmas about the cascade loop -/

/-- The cascade stops at the first tier whose call returns non-empty text:
with every earlier tier failed, the loop returns that tier's text and
label, and the invoked list extends exactly to that tier. -/
theorem cascadeLoop_first_success (respond : String → Option String)
    (before : List Tier) (t : Tier) (after : List Tier) (s : String)
    (hfail : ∀ u ∈ before, tierFailed (respond u.id))
    (ht : respond t.id = some s) (hs : s ≠ "") :
    ∀ init : String × String × List String,
      cascadeLoop respond (before ++ t :: after) init =
        (s, t.label, init.2.2 ++ (before ++ [t]).map Tier.id) := by
  induction before with
  | nil =>
    intro init
    obtain ⟨r0, u0, i0⟩ := init
    simp only [List.nil_append, cascadeLoop, ht, if_neg hs, List.map_cons,
      List.map_nil]
  | cons u rest ih =>
    intro init
    obtain ⟨r0, u0, i0⟩ := init
    have hu : tierFailed (respond u.id) := hfail u (List.mem_cons_self u rest)
    have hrest : ∀ v ∈ rest, tierFailed (respond v.id) := fun v hv =>
      hfail v (List.mem_cons_of_mem u hv)
    rcases hu with hu | hu
    · simp only [List.cons_append, cascadeLoop, hu, List.append_eq]
      rw [ih hrest (r0, u0, i0 ++ [u.id])]
      simp [List.append_assoc]
    · simp only [List.cons_append, cascadeLoop, hu, List.append_eq]
      rw [if_pos trivial, ih hrest ("", u0, i0 ++ [u.id])]
      simp [List.append_assoc]

/-- When every tier of the list fails, the cascade keeps the empty reply
and invokes every tier. -/
theorem cascadeLoop_all_fail (respond : String → Option String)
    (tiers : List Tier)
    (hfail : ∀ u ∈ tiers, tierFailed (respond u.id)) :
    ∀ used invoked,
      (cascadeLoop respond tiers ("", used, invoked)).1 = "" ∧
      (cascadeLoop respond tiers ("", used, invoked)).2.2 =
        invoked ++ tiers.map Tier.id := by
  induction tiers with
  | nil => intro used invoked; simp [cascadeLoop]
  | cons u rest ih =>
    intro used invoked
    have hu : tierFailed (respond u.id) := hfail u (List.mem_cons_self u rest)
    have hrest : ∀ v ∈ rest, tierFailed (respond v.id) := fun v hv =>
      hfail v (List.mem_cons_of_mem u hv)
    rcases hu with hu | hu
    · simp only [cascadeLoop, hu]
      obtain ⟨h1, h2⟩ := ih hrest used (invoked ++ [u.id])
      refine ⟨h1, ?_⟩
      rw [h2]; simp [List.append_assoc]
    · simp only [cascadeLoop, hu]
      rw [if_pos trivial]
      obtain ⟨h1, h2⟩ := ih hrest used (invoked ++ [u.id])
      refine ⟨h1, ?_⟩
      rw [h2]; simp [List.append_assoc]

/-! ## Claim C1 -/

/-- C1: for every chat request and every priority-ordered list of configured
backend tiers, if tier k completes with non-empty reply text, then no tier
of lower priority (k+1..n) is invoked for that request, and the returned
result is tagged with tier k's label.  Part 1 settles the cloud cascade
(part_004 lines 521-543) for an arbitrary tier ordering `before ++ t ::
after`: when every tier before `t` fails and `t` returns non-empty text
`s`, the loop result is `s` tagged with `t.label`, the invoked ids are
exactly those of `before ++ [t]`, and (for distinct tier ids) no tier of
`after` is ever invoked.  Part 2 settles Tier 1 of the part_004 route
(lines 485-514): when the Ollama tier returns non-empty text, the cloud
tiers are never invoked and the response is tagged with the Ollama label. -/
theorem waterfall_stops_at_first_nonempty_tier :
    (∀ (respond : String → Option String) (before : List Tier) (t : Tier)
        (after : List Tier) (s r0 u0 : String),
      (∀ u ∈ before, tierFailed (respond u.id)) → respond t.id = some s →
      s ≠ "" →
      cascadeLoop respond (before ++ t :: after) (r0, u0, []) =
        (s, t.label, (before ++ [t]).map Tier.id) ∧
      (((before ++ t :: after).map Tier.id).Nodup →
        ∀ u ∈ after,
          u.id ∉ (cascadeLoop respond (before ++ t :: after) (r0, u0, [])).2.2)) ∧
    (∀ (db : Db) (uid : Nat) (sid : Option Nat) (nsid : Nat)
        (p m un t1 : String) (g : String → Option String), t1 ≠ "" →
      (chatRoute db uid sid nsid p m un true (some t1) true g).tiersInvoked =
        ["ollama"] ∧
      (chatRoute db uid sid nsid p m un true (some t1) true g).response =
        RouteResponse.success t1 (sid.getD nsid)
          ("Ollama (" ++ OLLAMA_MODEL ++ ")")) := by
  constructor
  · intro respond before t after s r0 u0 hfail ht hs
    have heq := cascadeLoop_first_success respond before t after s hfail ht hs
      (r0, u0, [])
    simp only [List.nil_append] at heq
    refine ⟨heq, ?_⟩
    intro hnodup u hu
    rw [heq]
    intro hmem
    have hassoc : before ++ t :: after = (before ++ [t]) ++ after := by simp
    rw [hassoc, List.map_append, List.nodup_append] at hnodup
    exact hnodup.2.2 hmem (List.mem_map_of_mem Tier.id hu)
  · intro db uid sid nsid p m un t1 g ht1
    cases sid with
    | none => constructor <;> simp [chatRoute, ht1]
    | some s0 => constructor <;> simp [chatRoute, ht1]

/-- Witness for C1: a concrete cascade where the second cloud tier is the
first to return non-empty text, and a concrete request where the Ollama
tier succeeds. -/
theorem waterfall_stops_at_first_nonempty_tier_witness :
    cascadeLoop
        (fun tid => if tid = "gemini-2.5-flash" then some "hello" else none)
        AI_WATERFALL ("", "none", []) =
      ("hello", "Gemini 2.5 Flash",
        ["gemini-3-flash-preview", "gemini-2.5-flash"]) ∧
    (chatRoute ⟨[], []⟩ 1 none 5 "hi" "casual" "A" true (some "yo") true
        (fun _ => none)).tiersInvoked = ["ollama"] ∧
    (chatRoute ⟨[], []⟩ 1 none 5 "hi" "casual" "A" true (some "yo") true
        (fun _ => none)).response =
      RouteResponse.success "yo" 5 ("Ollama (" ++ OLLAMA_MODEL ++ ")") := by
  refine ⟨?_, ?_⟩
  · have h := (waterfall_stops_at_first_nonempty_tier.1
      (fun tid => if tid = "gemini-2.5-flash" then some "hello" else none)
      [⟨"gemini-3-flash-preview", "Gemini 3.0 Flash", 1⟩]
      ⟨"gemini-2.5-flash", "Gemini 2.5 Flash", 2⟩
      [⟨"gemini-1.5-pro", "Gemini 1.5 Pro", 3⟩]
      "hello" "" "none" (by decide) (by decide) (by decide)).1
    exact h
  · exact waterfall_stops_at_first_nonempty_tier.2 ⟨[], []⟩ 1 none 5
      "hi" "casual" "A" "yo" (fun _ => none) (by decide)

/-! ## Claim C4 -/

/-- C4: for every chat request on a thread with more than 15 stored turns,
the context window assembled for the backends contains exactly the 15 most
recent stored turns, ordered oldest-to-newest, and never more.  With
`turns` the thread's rows in chronological order, the part_004 history
fetch (`ORDER BY timestamp DESC LIMIT 15` followed by `.reverse()`, lines
452-461) yields precisely `turns.drop (turns.length - 15)` — the final 15
rows in their original chronological order — and its length is exactly 15. -/
theorem context_window_keeps_last_15 (turns : List ChatRecord)
    (h : CONTEXT_WINDOW < turns.length) :
    fetchContextRows turns = turns.drop (turns.length - CONTEXT_WINDOW) ∧
    (fetchContextRows turns).length = CONTEXT_WINDOW := by
  have h1 : fetchContextRows turns = turns.rtake CONTEXT_WINDOW := by
    rw [fetchContextRows, List.rtake_eq_reverse_take_reverse]
  have h2 : turns.rtake CONTEXT_WINDOW =
      turns.drop (turns.length - CONTEXT_WINDOW) := rfl
  refine ⟨h1.trans h2, ?_⟩
  rw [h1, h2, List.length_drop]
  omega

/-- A thread with 16 stored turns, distinguished by the `user_id` field. -/
def exTurns : List ChatRecord :=
  (List.range 16).map (fun i => ⟨1, i, "A", "user", "m", "casual", "x"⟩)

/-- Witness for C4: on a 16-turn thread the context window is the final 15
turns, in order. -/
theorem context_window_keeps_last_15_witness :
    CONTEXT_WINDOW < exTurns.length ∧
    fetchContextRows exTurns = exTurns.drop (exTurns.length - CONTEXT_WINDOW) ∧
    (fetchContextRows exTurns).length = CONTEXT_WINDOW :=
  ⟨by decide, context_window_keeps_last_15 exTurns (by decide)⟩

/-! ## The part_005 streaming revision (total-failure path)

part_005 lines 325-345: after the Ollama stream and the Gemini fallback
loop, `if (!fullReplyText)` the handler writes a bracketed system message
to the response stream, assigns it to `fullReplyText`, and the post-stream
save block (`if (fullReplyText)`) then inserts both the user turn and that
system message into `chat_records`. -/

/-- A `chat_records` row of the part_005 schema (line 343, `saveQ`). -/
structure Record005 where
  session_id : Nat
  user_id : Nat
  user_name : String
  user_agent : String
  ip_address : String
  role : String
  message_text : String
  mode : String
  model_used : String
deriving Repr, DecidableEq

/-- The "all models busy" message of part_005 lines 327-328. -/
def part005SystemMessage (streamingError : Option String) : String :=
  let errMsg := match streamingError with
    | some e => " (Error: " ++ e ++ ")"
    | none => ""
  "[System Message: All AI models are currently busy or unavailable." ++
    errMsg ++ " Please try again in a minute.]"

/-- part_005 lines 326-331: the reply text after the total-failure patch
(`generated` is `fullReplyText` as produced by the Ollama/Gemini attempts,
empty when every backend failed). -/
def part005FinalReply (generated : String) (streamingError : Option String) :
    String :=
  if generated = "" then part005SystemMessage streamingError else generated

/-- part_005 lines 326-345: the streamed reply text and the rows inserted
into `chat_records` by the post-stream save block. -/
def part005PostStream (generated : String) (streamingError : Option String)
    (session_id currentUserId : Nat)
    (user_name user_agent ip prompt mode modelUsed : String) :
    String × List Record005 :=
  let fullReplyText := part005FinalReply generated streamingError
  (fullReplyText,
    if fullReplyText = "" then []
    else
      [⟨session_id, currentUserId, user_name, user_agent, ip, "user",
          prompt, mode, "user-input"⟩,
       ⟨session_id, currentUserId, user_name, user_agent, ip, "model",
          fullReplyText, mode, modelUsed⟩])

/-! ## Claim C2 -/

/-- C2 counterexample: in the part_005 revision, a request on thread 7 in
which every backend produced no text (`generated = ""`) does NOT leave the
store unchanged: the user's `"hi"` turn and the bracketed system message
are both persisted, and the caller is streamed the system-message text
rather than an error-class response. -/
theorem all_tiers_failed_part005_persists :
    (part005PostStream "" none 7 3 "A" "ua" "ip" "hi" "casual" "none").2 =
      [⟨7, 3, "A", "ua", "ip", "user", "hi", "casual", "user-input"⟩,
       ⟨7, 3, "A", "ua", "ip", "model", part005SystemMessage none, "casual",
          "none"⟩] ∧
    (part005PostStream "" none 7 3 "A" "ua" "ip" "hi" "casual" "none").1 =
      part005SystemMessage none := by
  constructor <;> rfl

/-- C2 amended: in the part_004 revision, when the Ollama tier fails (or
returns empty text) and every cloud tier of the `AI_WATERFALL` fails, the
caller receives the HTTP 500 "System Exhaustion" error and the store is
left unchanged: neither the user's turn nor any assistant turn is
persisted.  (The part_005 revision instead persists the user turn plus a
system-message turn, as the counterexample shows.) -/
theorem all_tiers_failed_error_and_no_write
    (db : Db) (uid : Nat) (sid : Option Nat) (nsid : Nat)
    (p m un : String) (oc : Bool) (ores : Option String)
    (g : String → Option String)
    (hores : tierFailed ores)
    (hg : ∀ u ∈ AI_WATERFALL, tierFailed (g u.id)) :
    (chatRoute db uid sid nsid p m un oc ores true g).response =
      RouteResponse.error 500
        "System Exhaustion: All AI engines are currently unavailable." ∧
    (chatRoute db uid sid nsid p m un oc ores true g).db = db := by
  have key : ∀ used1 inv1,
      (cascadeLoop g AI_WATERFALL ("", used1, inv1)).1 = "" :=
    fun used1 inv1 => (cascadeLoop_all_fail g AI_WATERFALL hg used1 inv1).1
  rcases hores with h | h <;> subst h <;> cases oc <;>
    simp [chatRoute, key]

/-- Witness for C2's amended theorem at a concrete failing configuration. -/
theorem all_tiers_failed_error_and_no_write_witness :
    tierFailed (some "") ∧
    (∀ u ∈ AI_WATERFALL, tierFailed ((fun _ => none) u.id)) ∧
    (chatRoute ⟨[], []⟩ 3 (some 7) 9 "hi" "casual" "A" true (some "")
        true (fun _ => none)).response =
      RouteResponse.error 500
        "System Exhaustion: All AI engines are currently unavailable." ∧
    (chatRoute ⟨[], []⟩ 3 (some 7) 9 "hi" "casual" "A" true (some "")
        true (fun _ => none)).db = ⟨[], []⟩ :=
  ⟨by decide, by decide,
    all_tiers_failed_error_and_no_write ⟨[], []⟩ 3 (some 7) 9 "hi" "casual"
      "A" true (some "") (fun _ => none) (by decide) (by decide)⟩

/-! ## The src/server.js chat route and its binding environment

src/server.js declares, at module top level, exactly the following
bindings (imports lines 20-27; consts/functions lines 39, 51, 54, 57, 80,
102, 108, 177, 209, 231, 287, 299, 550, 577, 609, 856, 888).  `PERSONAS`
is not among them: the only `personas` object in the file is a local
constant inside `getSystemPrompt` (lines 612-619), whose name differs in
case and whose scope does not reach the chat route.  Line 651 of the chat
route nevertheless evaluates `PERSONAS[mode] || PERSONAS.casual`. -/

def serverJsTopLevelBindings : List String :=
  ["express", "cors", "dotenv", "pg", "bcrypt", "jwt", "GoogleGenerativeAI",
   "fs", "CONFIG", "OLLAMA_API_ENDPOINT", "OLLAMA_MODEL", "ai", "sysLogger",
   "Pool", "pool", "authenticateToken", "optionalAuth", "app",
   "validateRegistration", "validateLogin", "getOrCreateGuestUser",
   "generateSessionTitle", "getSystemPrompt", "initiateGracefulShutdown",
   "serverInstance"]

/-- Observable milestones of one run of the server.js POST /api/chat
handler (lines 629-724). -/
inductive JsEvent
  | guestLookup
  | titleGeneration
  | sessionInsert
  | tierInvoked (tier : String)
  | turnPersisted (role : String)
  | successResponse
  | getSystemPromptCall
deriving Repr, DecidableEq

/-- Evaluating an identifier in JavaScript: a name bound in the
environment resolves; an unbound name throws a `ReferenceError`. -/
def lookupBinding (env : List String) (name : String) : Except String Unit :=
  if name ∈ env then Except.ok () else
    Except.error ("ReferenceError: " ++ name ++ " is not defined")

/-- The server.js chat route (lines 629-724), step by step: resolve the
guest identity (line 634); when no `session_id` was supplied, await
`generateSessionTitle` and insert a `chat_sessions` row (lines 638-649);
evaluate the identifier `PERSONAS` (line 651) — aborting the handler with
the thrown error if it is unbound; only then run the Ollama tier (line
661), the Gemini fallback (line 682), the two `chat_records` inserts
(lines 691-712) and the success response (line 715).  The events list
records the milestones actually reached. -/
def serverJsChatHandler (env : List String) (hasSessionId : Bool) :
    Except String Unit × List JsEvent :=
  let events := [JsEvent.guestLookup] ++
    (if hasSessionId then []
     else [JsEvent.titleGeneration, JsEvent.sessionInsert])
  match lookupBinding env "PERSONAS" with
  | Except.error e => (Except.error e, events)
  | Except.ok _ =>
    (Except.ok (), events ++
      [JsEvent.tierInvoked "ollama", JsEvent.tierInvoked "gemini-1.5-flash",
       JsEvent.turnPersisted "user", JsEvent.turnPersisted "model",
       JsEvent.successResponse])

/-! ## Claim C3 -/

/-- C3: in src/server.js, every POST /api/chat request evaluates
`PERSONAS[mode]` at a point where no binding named `PERSONAS` exists
anywhere in that file, so every such request throws a `ReferenceError`
before any backend tier is invoked, before any turn is persisted and
before any success response is sent; `getSystemPrompt` is never called on
this path.  Stated over the handler run in server.js's actual top-level
environment, for requests both with and without a session reference. -/
theorem serverjs_chat_always_reference_error (hasSessionId : Bool) :
    "PERSONAS" ∉ serverJsTopLevelBindings ∧
    (serverJsChatHandler serverJsTopLevelBindings hasSessionId).1 =
      Except.error "ReferenceError: PERSONAS is not defined" ∧
    (∀ t, JsEvent.tierInvoked t ∉
      (serverJsChatHandler serverJsTopLevelBindings hasSessionId).2) ∧
    (∀ r, JsEvent.turnPersisted r ∉
      (serverJsChatHandler serverJsTopLevelBindings hasSessionId).2) ∧
    JsEvent.successResponse ∉
      (serverJsChatHandler serverJsTopLevelBindings hasSessionId).2 ∧
    JsEvent.getSystemPromptCall ∉
      (serverJsChatHandler serverJsTopLevelBindings hasSessionId).2 := by
  have hni : "PERSONAS" ∉ serverJsTopLevelBindings := by decide
  cases hasSessionId <;>
    refine ⟨hni, rfl, ?_, ?_, by decide, by decide⟩ <;>
    intro x <;> simp [serverJsChatHandler, lookupBinding, hni]

/-! ## Claim C5 -/

/-- A store holding thread 7 owned by user 1, with one prior exchange. -/
def dbOwnedByUser1 : Db :=
  { sessions := [⟨7, 1, "New Conversation", false⟩],
    records :=
      [⟨7, 1, "A", "user", "old question", "casual", "user-input"⟩,
       ⟨7, 1, "A", "model", "old answer", "casual", "Gemini 2.5 Flash"⟩] }

/-- C5: the part_004 chat route (and every other revision's chat route)
performs no ownership check on a supplied `session_id`.  A request by
user 2 referencing thread 7 — owned by user 1 — is not rejected: the
Ollama tier is invoked, the handler returns a success response, and both
turns of the exchange are appended to the foreign thread's records.  This
contradicts the claimed access-denied rejection before any backend tier
is invoked. -/
theorem foreign_thread_not_rejected :
    (dbOwnedByUser1.sessions.filter
      (fun s => s.session_id = 7 && s.user_id != 2)).length = 1 ∧
    (chatRoute dbOwnedByUser1 2 (some 7) 99 "hi" "casual" "B" true
        (some "hello") true (fun _ => none)).tiersInvoked = ["ollama"] ∧
    (chatRoute dbOwnedByUser1 2 (some 7) 99 "hi" "casual" "B" true
        (some "hello") true (fun _ => none)).response =
      RouteResponse.success "hello" 7 ("Ollama (" ++ OLLAMA_MODEL ++ ")") ∧
    (chatRoute dbOwnedByUser1 2 (some 7) 99 "hi" "casual" "B" true
        (some "hello") true (fun _ => none)).db.records =
      dbOwnedByUser1.records ++
        [⟨7, 2, "B", "user", "hi", "casual", "user-input"⟩,
         ⟨7, 2, "B", "model", "hello", "casual",
            "Ollama (" ++ OLLAMA_MODEL ++ ")"⟩] := by
  refine ⟨by decide, ?_, ?_, ?_⟩ <;> rfl

/-! ## The src/server.js DELETE /api/sessions/:id route (lines 829-847)

The route first runs `DELETE FROM chat_records WHERE session_id = $1` —
with no owner filter — and then `DELETE FROM chat_sessions WHERE
session_id = $1 AND user_id = $2` with the requester's id. -/

def deleteSessionRoute (db : Db) (sessionIdParam requesterId : Nat) : Db :=
  { records := db.records.filter (fun r => r.session_id ≠ sessionIdParam),
    sessions := db.sessions.filter
      (fun s => ¬(s.session_id = sessionIdParam ∧ s.user_id = requesterId)) }

/-! ## Claim C10 -/

/-- C10: the server.js DELETE /api/sessions/:id route deletes the
`chat_records` of the targeted session without an owner filter.  When
user 2 requests deletion of thread 7 — owned by user 1 — all of the
thread's turn records are removed while the session header survives
(because the header delete is owner-filtered and matches nothing): a
thread's turn records ARE deleted at the request of a different identity,
contradicting the claimed ownership invariant. -/
theorem delete_route_removes_foreign_records :
    (dbOwnedByUser1.sessions.filter
      (fun s => s.session_id = 7 && s.user_id != 2)).length = 1 ∧
    (deleteSessionRoute dbOwnedByUser1 7 2).records = [] ∧
    (deleteSessionRoute dbOwnedByUser1 7 2).sessions =
      dbOwnedByUser1.sessions := by
  refine ⟨by decide, ?_, ?_⟩ <;> rfl

/-! ## The part_000 in-memory revision (lines 50-138)

The route keeps a global `chatHistory` of `{role, content}` pairs.  On an
HTTP-ok Ollama reply it computes `data.message?.content || "(No
response)"`, pushes that as an assistant turn, and returns `[Ollama] ...`
immediately — Gemini is only attempted when the Ollama fetch throws or the
response status is not ok. -/

/-- part_000 line 89: `data.message?.content || "(No response)"`.  `none`
is a missing `message`/`content` field; JavaScript `||` also replaces the
empty string (falsy). -/
def part000BotReply (content : Option String) : String :=
  match content with
  | some c => if c = "" then "(No response)" else c
  | none => "(No response)"

/-- Outcome of one part_000 chat request. -/
structure Part000Outcome where
  reply : String
  history : List (String × String)
  geminiAttempted : Bool
deriving Repr, DecidableEq

/-- The Gemini fallback of part_000 (lines 101-135): try each model of
`GEMINI_FALLBACK_ORDER = ["gemini-2.0-flash-lite", "gemini-1.5-flash"]` in
order, push the first successful reply, else report total failure. -/
def part000GeminiLoop (respond : String → Option String)
    (history1 : List (String × String)) :
    List String → Part000Outcome
  | [] => { reply := "Error: All AI services failed.", history := history1,
            geminiAttempted := true }
  | m :: rest =>
    match respond m with
    | some botReply =>
      { reply := "[Gemini: " ++ m ++ "] " ++ botReply,
        history := history1 ++ [("assistant", botReply)],
        geminiAttempted := true }
    | none => part000GeminiLoop respond history1 rest

/-- The part_000 chat route (lines 50-138), with the persona-change memory
reset elided (same mode as the previous request).  `ollamaOutcome = some c`
models an HTTP-ok `/api/chat` response with `data.message?.content = c`;
`none` models a thrown fetch or a non-ok status. -/
def part000ChatRoute (text : String) (history0 : List (String × String))
    (ollamaOutcome : Option (Option String))
    (geminiRespond : String → Option String) : Part000Outcome :=
  let history1 := history0 ++ [("user", text)]
  match ollamaOutcome with
  | some content =>
    let botReply := part000BotReply content
    { reply := "[Ollama] " ++ botReply,
      history := history1 ++ [("assistant", botReply)],
      geminiAttempted := false }
  | none =>
    part000GeminiLoop geminiRespond history1
      ["gemini-2.0-flash-lite", "gemini-1.5-flash"]

/-! ## Claim C6 -/

/-- C6 counterexample: in the part_000 revision, an HTTP-level Ollama
success whose payload `content` field is missing is NOT classified as a
failure: the literal `"(No response)"` is returned as a successful
`[Ollama]` reply, appended to the conversation history as an assistant
turn, and the next tier (Gemini) is never attempted — even though a
working Gemini backend was available. -/
theorem empty_payload_succeeds_in_part000 :
    part000ChatRoute "hi" [] (some none) (fun _ => some "cloud reply") =
      { reply := "[Ollama] (No response)",
        history := [("user", "hi"), ("assistant", "(No response)")],
        geminiAttempted := false } := by
  rfl

/-- C6 amended: in the part_004 revision (and under the server.js
persistence guard), an HTTP-level success with empty reply text is treated
as a failure: the dispatcher advances into the cloud cascade (the first
`AI_WATERFALL` tier is invoked), and no assistant turn with empty text is
ever persisted — every `"model"` row the route appends carries the
non-empty winning reply. -/
theorem empty_payload_advances_and_never_persisted
    (db : Db) (uid : Nat) (sid : Option Nat) (nsid : Nat)
    (p m un : String) (g : String → Option String) (first : Tier)
    (rest : List Tier) (hw : AI_WATERFALL = first :: rest) :
    first.id ∈
      (chatRoute db uid sid nsid p m un true (some "") true g).tiersInvoked ∧
    (∀ rec : ChatRecord,
      rec ∈ (chatRoute db uid sid nsid p m un true (some "") true g).db.records →
      rec ∉ db.records → rec.role = "model" → rec.message_text ≠ "") := by
  have hinv : ∀ (tiers : List Tier) (r0 u0 : String) (inv : List String),
      inv <+: (cascadeLoop g tiers (r0, u0, inv)).2.2 := by
    intro tiers
    induction tiers with
    | nil => intro r0 u0 inv; exact List.prefix_rfl
    | cons u rest2 ih =>
      intro r0 u0 inv
      simp only [cascadeLoop]
      cases hg : g u.id with
      | none =>
        exact ((inv.prefix_append [u.id]).trans (ih r0 u0 (inv ++ [u.id])))
      | some txt =>
        dsimp only
        by_cases htxt : txt = ""
        · rw [if_pos htxt]
          exact ((inv.prefix_append [u.id]).trans (ih txt u0 (inv ++ [u.id])))
        · rw [if_neg htxt]
          exact inv.prefix_append [u.id]
  constructor
  · have hfirst : ∀ (rest2 : List Tier) (r0 u0 : String) (inv : List String),
        first.id ∈ (cascadeLoop g (first :: rest2) (r0, u0, inv)).2.2 := by
      intro rest2 r0 u0 inv
      simp only [cascadeLoop]
      cases hg : g first.id with
      | none =>
        exact (hinv rest2 r0 u0 (inv ++ [first.id])).mem
          (by simp)
      | some txt =>
        dsimp only
        by_cases htxt : txt = ""
        · rw [if_pos htxt]
          exact (hinv rest2 txt u0 (inv ++ [first.id])).mem (by simp)
        · rw [if_neg htxt]
          simp
    have h := hfirst rest "" ("Ollama (" ++ OLLAMA_MODEL ++ ")") ["ollama"]
    simp only [chatRoute, hw]
    by_cases hc : (cascadeLoop g (first :: rest)
        ("", "Ollama (" ++ OLLAMA_MODEL ++ ")", ["ollama"])).1 = ""
    · simpa [hc] using h
    · simpa [hc] using h
  · intro rec hmem hnew hrole
    simp only [chatRoute] at hmem
    by_cases hc : (cascadeLoop g AI_WATERFALL
        ("", "Ollama (" ++ OLLAMA_MODEL ++ ")", ["ollama"])).1 = ""
    · simp [hc] at hmem
      exact absurd hmem hnew
    · simp [hc] at hmem
      rcases hmem with hmem | hmem | hmem
      · exact absurd hmem hnew
      · rw [hmem] at hrole; simp at hrole
      · rw [hmem]
        exact hc

/-- Witness for C6's amended theorem: a concrete request in which the
Ollama tier answers HTTP-ok with empty text and the first cloud tier is
then invoked. -/
theorem empty_payload_advances_and_never_persisted_witness :
    AI_WATERFALL = (⟨"gemini-3-flash-preview", "Gemini 3.0 Flash", 1⟩ : Tier) ::
      [⟨"gemini-2.5-flash", "Gemini 2.5 Flash", 2⟩,
       ⟨"gemini-1.5-pro", "Gemini 1.5 Pro", 3⟩] ∧
    "gemini-3-flash-preview" ∈
      (chatRoute ⟨[], []⟩ 1 (some 7) 9 "hi" "casual" "A" true (some "") true
        (fun _ => some "cloud")).tiersInvoked :=
  ⟨rfl,
    (empty_payload_advances_and_never_persisted ⟨[], []⟩ 1 (some 7) 9
      "hi" "casual" "A" (fun _ => some "cloud")
      ⟨"gemini-3-flash-preview", "Gemini 3.0 Flash", 1⟩
      [⟨"gemini-2.5-flash", "Gemini 2.5 Flash", 2⟩,
       ⟨"gemini-1.5-pro", "Gemini 1.5 Pro", 3⟩] rfl).1⟩

/-! ## Context serialization (part_005 lines 231-299)

A context message is a `{role, text}` pair as read back from
`chat_records` (role `"user"` or `"model"`).  Two serializations are
built: the flat Llama-3.1 template string for Ollama (lines 257-259) and
the structured `contents` array for Gemini (lines 297-299), whose model
config carries the persona as `systemInstruction` — except for the legacy
`"gemini-pro"` model, for which line 305 skips it. -/

structure CtxMsg where
  role : String
  text : String
deriving Repr, DecidableEq

/-- One entry of the Gemini `contents` array: `{role, parts: [{text}]}`. -/
structure GeminiContent where
  role : String
  parts : List String
deriving Repr, DecidableEq

/-- part_005 lines 298-299: `geminiHistory` from the context messages plus
the new user prompt appended last. -/
def buildGeminiContents (ctx : List CtxMsg) (prompt : String) :
    List GeminiContent :=
  (ctx.map fun msg =>
    ⟨if msg.role = "user" then "user" else "model", [msg.text]⟩) ++
    [⟨"user", [prompt]⟩]

/-- part_005 lines 303-305: `modelConfig.systemInstruction` is set to the
persona instruction unless the model is the legacy `"gemini-pro"`. -/
def buildGeminiModelConfig (modelName sys : String) : Option String :=
  if modelName = "gemini-pro" then none else some sys

/-- Number of times the persona instruction occurs in the request
presented to a Gemini backend (model config plus structured contents). -/
def personaOccurrences (cfg : Option String) (contents : List GeminiContent)
    (sys : String) : Nat :=
  (match cfg with
   | some s => if s = sys then 1 else 0
   | none => 0) +
  contents.foldl (fun a c => a + c.parts.countP (fun t => t = sys)) 0

/-- part_005 lines 257-259: the flat Llama-3.1 template prompt — system
block first, then each context message, then the new user turn and the
assistant header. -/
def buildOllamaPrompt (sys : String) (ctx : List CtxMsg) (prompt : String) :
    String :=
  (ctx.foldl
    (fun acc msg => acc ++ "<|start_header_id|>" ++
      (if msg.role = "user" then "user" else "assistant") ++
      "<|end_header_id|>\n" ++ msg.text ++ "<|eot_id|>\n")
    ("<|begin_of_text|><|start_header_id|>system<|end_header_id|>\n" ++
      sys ++ "<|eot_id|>\n")) ++
  "<|start_header_id|>user<|end_header_id|>\n" ++ prompt ++
  "<|eot_id|>\n<|start_header_id|>assistant<|end_header_id|>\n"

/-! ## Claim C7 -/

/-- Stored turns `[u1, a1, u2, a2]` with the roles part_005 persists. -/
def ctx4 : List CtxMsg :=
  [⟨"user", "u1"⟩, ⟨"model", "a1"⟩, ⟨"user", "u2"⟩, ⟨"model", "a2"⟩]

/-- C7 counterexample: for the legacy `"gemini-pro"` tier of part_005, the
request built from the thread `[u1, a1, u2, a2]` and new prompt `u3`
contains the persona instruction ZERO times — not exactly once — because
line 305 omits `systemInstruction` for that model and the persona is
nowhere in the structured contents. -/
theorem persona_dropped_for_legacy_gemini :
    buildGeminiModelConfig "gemini-pro" "PERSONA INSTRUCTION" = none ∧
    personaOccurrences (buildGeminiModelConfig "gemini-pro" "PERSONA INSTRUCTION")
      (buildGeminiContents ctx4 "u3") "PERSONA INSTRUCTION" = 0 ∧
    buildGeminiContents ctx4 "u3" =
      [⟨"user", ["u1"]⟩, ⟨"model", ["a1"]⟩, ⟨"user", ["u2"]⟩,
       ⟨"model", ["a2"]⟩, ⟨"user", ["u3"]⟩] := by
  refine ⟨rfl, by decide, rfl⟩

/-- C7 amended: for every thread `[u1, a1, u2, a2]`, new prompt `u3` and
persona instruction, the structured Gemini serialization lists the turns
in exactly the order `[u1, a1, u2, a2, u3]`; for every non-legacy model
the persona instruction is carried exactly once, out of band and ahead of
all turns, in `systemInstruction`; and the flat Llama-3.1 serialization
likewise opens with the persona system block followed by the turns in
order.  (For the legacy `"gemini-pro"` model the persona is dropped, as
the counterexample records.) -/
theorem context_serialization_preserves_order
    (u1 a1 u2 a2 u3 sys modelName : String)
    (hm : modelName ≠ "gemini-pro") :
    buildGeminiContents
        [⟨"user", u1⟩, ⟨"model", a1⟩, ⟨"user", u2⟩, ⟨"model", a2⟩] u3 =
      [⟨"user", [u1]⟩, ⟨"model", [a1]⟩, ⟨"user", [u2]⟩, ⟨"model", [a2]⟩,
       ⟨"user", [u3]⟩] ∧
    buildGeminiModelConfig modelName sys = some sys ∧
    buildOllamaPrompt sys
        [⟨"user", u1⟩, ⟨"model", a1⟩, ⟨"user", u2⟩, ⟨"model", a2⟩] u3 =
      "<|begin_of_text|><|start_header_id|>system<|end_header_id|>\n" ++
        sys ++ "<|eot_id|>\n" ++
      "<|start_header_id|>" ++ "user" ++ "<|end_header_id|>\n" ++ u1 ++
        "<|eot_id|>\n" ++
      "<|start_header_id|>" ++ "assistant" ++ "<|end_header_id|>\n" ++ a1 ++
        "<|eot_id|>\n" ++
      "<|start_header_id|>" ++ "user" ++ "<|end_header_id|>\n" ++ u2 ++
        "<|eot_id|>\n" ++
      "<|start_header_id|>" ++ "assistant" ++ "<|end_header_id|>\n" ++ a2 ++
        "<|eot_id|>\n" ++
      "<|start_header_id|>user<|end_header_id|>\n" ++ u3 ++
      "<|eot_id|>\n<|start_header_id|>assistant<|end_header_id|>\n" := by
  refine ⟨by simp [buildGeminiContents], ?_, ?_⟩
  · rw [buildGeminiModelConfig, if_neg hm]
  · rfl

/-- Witness for C7's amended theorem at concrete turn texts and the
`"gemini-1.5-flash"` model. -/
theorem context_serialization_preserves_order_witness :
    buildGeminiContents ctx4 "u3" =
      [⟨"user", ["u1"]⟩, ⟨"model", ["a1"]⟩, ⟨"user", ["u2"]⟩,
       ⟨"model", ["a2"]⟩, ⟨"user", ["u3"]⟩] ∧
    buildGeminiModelConfig "gemini-1.5-flash" "P" = some "P" :=
  ⟨(context_serialization_preserves_order "u1" "a1" "u2" "a2" "u3" "P"
      "gemini-1.5-flash" (by decide)).1,
   (context_serialization_preserves_order "u1" "a1" "u2" "a2" "u3" "P"
      "gemini-1.5-flash" (by decide)).2.1⟩

/-! ## Tier-1 timeout and abort (part_004 lines 485-514) -/

/-- Outcome the Ollama backend would eventually deliver, independent of
when it arrives. -/
inductive FetchOutcome
  | ok (data : String)
  | notOk
  | networkError
deriving Repr, DecidableEq

/-- part_004 lines 486-510: `setTimeout(() => controller.abort(),
CONFIG.OLLAMA_TIMEOUT)` arms an abort at `OLLAMA_TIMEOUT` ms and the fetch
is awaited with that signal.  `rt` is the backend's response time in ms.
When `OLLAMA_TIMEOUT ≤ rt` the abort fires first: the awaited fetch
rejects with an `AbortError` (caught at line 511) and the late payload is
never read.  Otherwise the timer is cleared (line 503) and an HTTP-ok body
yields `data.response`. -/
def tier1Attempt (rt : Nat) (outcome : FetchOutcome) : Option String :=
  if OLLAMA_TIMEOUT ≤ rt then none
  else match outcome with
    | .ok data => some data
    | .notOk => none
    | .networkError => none

/-! ## Claim C8 -/

/-- C8: a backend that has not responded within the tier's configured
timeout contributes no text to the final reply.  For every response time
at or past `OLLAMA_TIMEOUT`, the Tier-1 attempt yields no text, and the
entire route result — response body, persisted store, invoked tiers,
background work — is independent of whatever the stalled backend would
eventually have answered: the late response is discarded, never delivered
to the caller and never appended to history. -/
theorem stalled_tier_contributes_no_text (rt : Nat) (outcome : FetchOutcome)
    (h : OLLAMA_TIMEOUT ≤ rt) :
    tier1Attempt rt outcome = none ∧
    ∀ (db : Db) (uid : Nat) (sid : Option Nat) (nsid : Nat)
      (p m un : String) (gc : Bool) (g : String → Option String)
      (late : FetchOutcome),
      chatRoute db uid sid nsid p m un true (tier1Attempt rt outcome) gc g =
        chatRoute db uid sid nsid p m un true (tier1Attempt rt late) gc g := by
  have hnone : ∀ o : FetchOutcome, tier1Attempt rt o = none := fun o => by
    simp [tier1Attempt, h]
  exact ⟨hnone outcome, fun db uid sid nsid p m un gc g late => by
    rw [hnone outcome, hnone late]⟩

/-- Witness for C8 at response time exactly `OLLAMA_TIMEOUT`: the late
payload `"late reply"` is discarded and the route behaves as if the tier
had failed outright. -/
theorem stalled_tier_contributes_no_text_witness :
    OLLAMA_TIMEOUT ≤ 120000 ∧
    tier1Attempt 120000 (FetchOutcome.ok "late reply") = none ∧
    chatRoute ⟨[], []⟩ 1 (some 7) 9 "hi" "casual" "A" true
        (tier1Attempt 120000 (FetchOutcome.ok "late reply")) true
        (fun _ => none) =
      chatRoute ⟨[], []⟩ 1 (some 7) 9 "hi" "casual" "A" true
        (tier1Attempt 120000 FetchOutcome.notOk) true (fun _ => none) :=
  ⟨by decide,
   (stalled_tier_contributes_no_text 120000 (FetchOutcome.ok "late reply")
     (by decide)).1,
   (stalled_tier_contributes_no_text 120000 (FetchOutcome.ok "late reply")
     (by decide)).2 ⟨[], []⟩ 1 (some 7) 9 "hi" "casual" "A" true
     (fun _ => none) FetchOutcome.notOk⟩

/-! ## Request-path suspension (title summarization)

A handler run is a sequence of steps: `awaited f` is an `await f(...)`
expression on the handler's own path (the handler suspends for the call's
whole duration), `spawned f` is a call issued without `await`
(fire-and-forget: the handler continues immediately), and `respond` is the
dispatch of the reply to the caller. -/

inductive Step
  | awaited (name : String)
  | spawned (name : String)
  | respond
deriving Repr, DecidableEq

/-- Time the caller waits for the reply: the sum of the durations of the
awaited calls that precede the `respond` step (or the handler's
termination when it never responds). -/
def delayBeforeRespond (dur : String → Nat) : List Step → Nat
  | [] => 0
  | Step.respond :: _ => 0
  | Step.awaited n :: rest => dur n + delayBeforeRespond dur rest
  | Step.spawned _ :: rest => delayBeforeRespond dur rest

/-- The src/server.js chat route on a new thread (lines 629-651): it
awaits `getOrCreateGuestUser`, then awaits `generateSessionTitle`, then
awaits the `chat_sessions` insert — all on the request path — and then
terminates with the `PERSONAS` ReferenceError, never responding. -/
def serverJsNewThreadSteps : List Step :=
  [Step.awaited "getOrCreateGuestUser", Step.awaited "generateSessionTitle",
   Step.awaited "insertChatSession"]

/-- The part_004 chat route after a successful generation on a new thread
(lines 548-578): await the `chat_sessions` insert, fire
`summarizeSessionWithOllama(activeSessionId)` WITHOUT `await` (line 561),
await the two `chat_records` inserts, respond. -/
def part004NewThreadTail : List Step :=
  [Step.awaited "insertChatSession",
   Step.spawned "summarizeSessionWithOllama",
   Step.awaited "insertUserRecord", Step.awaited "insertModelRecord",
   Step.respond]

/-- The whole part_004 new-thread run: the generation-tier steps (history
fetch and backend attempts, which never await the summarizer) followed by
the persistence tail. -/
def part004ChatSteps (tierSteps : List Step) : List Step :=
  tierSteps ++ part004NewThreadTail

/-! ## Claim C9 -/

/-- C9 counterexample: in src/server.js the title-generation backend call
IS awaited on the request path of every new-thread chat request (line
640), so the path is delayed by the call's full duration: with a title
call that takes 100 ms and everything else instantaneous, the handler is
held up exactly 100 ms before it can proceed — the reply depends on
completion of the title-generation call, contradicting the fire-and-forget
contract. -/
theorem title_generation_blocks_serverjs_request :
    Step.awaited "generateSessionTitle" ∈ serverJsNewThreadSteps ∧
    delayBeforeRespond
        (fun n => if n = "generateSessionTitle" then 100 else 0)
        serverJsNewThreadSteps = 100 := by
  exact ⟨by decide, rfl⟩

/-- The reply delay only depends on the durations of the awaited steps
that occur in the run. -/
theorem delayBeforeRespond_congr (dur dur' : String → Nat) :
    ∀ steps : List Step,
      (∀ n, Step.awaited n ∈ steps → dur n = dur' n) →
      delayBeforeRespond dur steps = delayBeforeRespond dur' steps
  | [], _ => rfl
  | Step.respond :: _, _ => rfl
  | Step.awaited n :: rest, h => by
    simp only [delayBeforeRespond]
    rw [h n (List.mem_cons_self _ _),
      delayBeforeRespond_congr dur dur' rest
        (fun n2 hn2 => h n2 (List.mem_cons_of_mem _ hn2))]
  | Step.spawned n :: rest, h => by
    simp only [delayBeforeRespond]
    exact delayBeforeRespond_congr dur dur' rest
      (fun n2 hn2 => h n2 (List.mem_cons_of_mem _ hn2))

/-- C9 amended: in the part_004 revision (and in part_005, where title
generation runs only after `res.end()`), triggering title summarization
never blocks the request/response path: the summarizer appears on the
new-thread run only as an un-awaited spawn, and the caller's reply delay
is independent of the summarizer's duration — any two duration assignments
that agree on everything except `summarizeSessionWithOllama` produce the
same delay.  (In src/server.js the title call is awaited before
generation, as the counterexample shows.) -/
theorem summarization_never_delays_reply (tierSteps : List Step)
    (hti : Step.awaited "summarizeSessionWithOllama" ∉ tierSteps)
    (dur dur' : String → Nat)
    (hdur : ∀ n, n ≠ "summarizeSessionWithOllama" → dur n = dur' n) :
    Step.spawned "summarizeSessionWithOllama" ∈ part004ChatSteps tierSteps ∧
    delayBeforeRespond dur (part004ChatSteps tierSteps) =
      delayBeforeRespond dur' (part004ChatSteps tierSteps) := by
  constructor
  · simp [part004ChatSteps, part004NewThreadTail]
  · apply delayBeforeRespond_congr
    intro n hmem
    apply hdur
    intro he
    subst he
    rw [part004ChatSteps, List.mem_append] at hmem
    rcases hmem with hmem | hmem
    · exact hti hmem
    · exact absurd hmem (by decide)

/-- Witness for C9's amended theorem: a run whose only tier step is the
Ollama fetch; making the summarizer cost 777 ms instead of 0 ms leaves the
reply delay unchanged. -/
theorem summarization_never_delays_reply_witness :
    Step.awaited "summarizeSessionWithOllama" ∉
      [Step.awaited "ollamaFetch"] ∧
    Step.spawned "summarizeSessionWithOllama" ∈
      part004ChatSteps [Step.awaited "ollamaFetch"] ∧
    delayBeforeRespond
        (fun n => if n = "summarizeSessionWithOllama" then 777 else 1)
        (part004ChatSteps [Step.awaited "ollamaFetch"]) =
      delayBeforeRespond
        (fun n => if n = "summarizeSessionWithOllama" then 0 else 1)
        (part004ChatSteps [Step.awaited "ollamaFetch"]) := by
  have h := summarization_never_delays_reply [Step.awaited "ollamaFetch"]
    (by decide)
    (fun n => if n = "summarizeSessionWithOllama" then 777 else 1)
    (fun n => if n = "summarizeSessionWithOllama" then 0 else 1)
    (fun n hn => by simp [hn])
  exact ⟨by decide, h.1, h.2⟩

end AvneeshBot
